import Mathlib

/-!
Shallow embedding of the Azure Foundry FastAPI backend (the repository's
chat/generate translation service) and proofs of its specified properties.

The served application is `src/main.py`: it defines its own `ChatRequest`
(single `message` string), a `ChatResponse` with a single `response` string,
the `verify_token` guard, an `lru_cache`d client factory, and the
`/api/v1/chat/completions` and `/api/v1/generate` handlers.  `src/models.py`
declares a richer `ChatRequest` schema with range constraints that no route
uses.  `src/azure_foundry_client.py` is the repository's own upstream HTTP
client, which turns a non-200 upstream status into an exception whose message
carries the literal status code.  Numbers: Python floats that appear only as
exact decimal constants are embedded as rationals; ints as `Int`.
-/

/-- A chat message as carried in the upstream payload (`{"role": .., "content": ..}`). -/
structure Msg where
  role : String
  content : String
deriving DecidableEq, Repr

/-- Connection configuration (`Config` in `src/main.py`, resolved from env vars). -/
structure Config where
  endpoint : String
  api_key : String
  deployment : String
  api_version : String
deriving DecidableEq, Repr

/-- The upstream client object (`AzureOpenAI(...)`): just its construction arguments. -/
structure Client where
  endpoint : String
  api_key : String
  api_version : String
deriving DecidableEq, Repr

/-- An HTTP-level error raised by the service (`HTTPException(status_code, detail)`). -/
structure HErr where
  status : Nat
  detail : String
deriving DecidableEq, Repr

/-- Upstream completion-choice message. -/
structure UMessage where
  role : String
  content : String
deriving DecidableEq, Repr

/-- One element of the upstream `choices` array. -/
structure UChoice where
  index : Int
  message : UMessage
  finish_reason : Option String
deriving DecidableEq, Repr

/-- Upstream `usage` object. -/
structure UUsage where
  prompt_tokens : Int
  completion_tokens : Int
  total_tokens : Int
deriving DecidableEq, Repr

/-- The upstream chat-completion response body (usage may be absent). -/
structure UpstreamResponse where
  id : String
  object : String
  created : Int
  model : String
  choices : List UChoice
  usage : Option UUsage
deriving DecidableEq, Repr

/-- The JSON body a caller posts to the chat/generate endpoints.  Every field is
optional at the wire level; fields the served `ChatRequest` model does not
declare (`top_p`, penalties, `stop`, `stream`) are representable here because a
caller can supply them even though pydantic silently drops them. -/
structure ChatBody where
  message : Option String
  model : Option String
  max_tokens : Option Int
  temperature : Option ℚ
  top_p : Option ℚ
  frequency_penalty : Option ℚ
  presence_penalty : Option ℚ
  stop : Option (List String)
  stream : Option Bool
deriving DecidableEq, Repr

/-- Schema `ChatRequest` as declared in `src/main.py` (lines 41-45): only `message`,
`model`, `max_tokens`, `temperature`, with pydantic defaults and no range
constraints. -/
structure ChatRequest where
  message : String
  model : String
  max_tokens : Int
  temperature : ℚ
deriving DecidableEq, Repr

/-- Pydantic validation of a request body against `src/main.py`'s `ChatRequest`:
`message` is required (missing → 422); the other fields take their declared
defaults when absent; undeclared fields are ignored. -/
def parseChatRequest (b : ChatBody) : Except HErr ChatRequest :=
  match b.message with
  | none => .error ⟨422, "field required: message"⟩
  | some m =>
      .ok { message := m
            model := b.model.getD "gpt-4.1"
            max_tokens := b.max_tokens.getD 1000
            temperature := b.temperature.getD 0.7 }

/-- Schema `ChatResponse` as declared in `src/main.py` (lines 47-51). -/
structure ChatResponse where
  response : String
  model : String
  timestamp : Int
  tokens_used : Option Int
deriving DecidableEq, Repr

/-- The field names of the serialized `ChatResponse` JSON object, exactly the
declared pydantic fields of `src/main.py`'s `ChatResponse`. -/
def chatResponseFields : List String :=
  ["response", "model", "timestamp", "tokens_used"]

/-- The dict returned by `generate_text` in `src/main.py` (lines 229-235). -/
structure GenerateResponse where
  generated_text : String
  model : String
  timestamp : Int
  tokens_used : Option Int
  generation_type : String
deriving DecidableEq, Repr

/-- The keyword arguments `src/main.py` passes to
`client.chat.completions.create` (the payload of the upstream call). -/
structure UpstreamPayload where
  model : String
  messages : List Msg
  max_tokens : Int
  temperature : ℚ
  top_p : ℚ
  frequency_penalty : ℚ
  presence_penalty : ℚ
  stop : Option (List String)
  stream : Bool
deriving DecidableEq, Repr

/-- The messages the caller supplied, as the served single-`message` schema
represents them: one user message. -/
def callerMessages (r : ChatRequest) : List Msg :=
  [⟨"user", r.message⟩]

/-- The fixed system preamble of the chat endpoint (`src/main.py` lines 144-148). -/
def chatPreamble : Msg :=
  ⟨"system", "You are a helpful AI assistant."⟩

/-- The message list `chat_completion` sends upstream (`src/main.py` lines 144-153). -/
def chatMessages (r : ChatRequest) : List Msg :=
  [⟨"system", "You are a helpful AI assistant."⟩, ⟨"user", r.message⟩]

/-- The fixed system preamble of the generate endpoint (`src/main.py` lines 198-202). -/
def generatePreamble : Msg :=
  ⟨"system", "You are a helpful AI assistant focused on generating high-quality text content."⟩

/-- The message list `generate_text` sends upstream (`src/main.py` lines 198-207). -/
def generateMessages (r : ChatRequest) : List Msg :=
  [⟨"system", "You are a helpful AI assistant focused on generating high-quality text content."⟩,
   ⟨"user", r.message⟩]

/-- The upstream call built by `chat_completion` (`src/main.py` lines 156-166):
model is the configured deployment, `top_p = 0.95`, zero penalties, no stop,
`stream = False`. -/
def chatPayload (cfg : Config) (r : ChatRequest) : UpstreamPayload :=
  { model := cfg.deployment
    messages := chatMessages r
    max_tokens := r.max_tokens
    temperature := r.temperature
    top_p := 0.95
    frequency_penalty := 0
    presence_penalty := 0
    stop := none
    stream := false }

/-- The upstream call built by `generate_text` (`src/main.py` lines 210-220). -/
def generatePayload (cfg : Config) (r : ChatRequest) : UpstreamPayload :=
  { model := cfg.deployment
    messages := generateMessages r
    max_tokens := r.max_tokens
    temperature := r.temperature
    top_p := 0.95
    frequency_penalty := 0
    presence_penalty := 0
    stop := none
    stream := false }

/-- Python expression `completion.usage.total_tokens if completion.usage else None`
(`src/main.py` lines 170 and 226): a total function of the optional usage. -/
def usageTokens (u : Option UUsage) : Option Int :=
  match u with
  | some us => some us.total_tokens
  | none => none

/-- Python expression `request.model or config.AZURE_FOUNDRY_DEPLOYMENT_NAME`
(`src/main.py` line 174): Python `or` on strings falls through on the empty
string. -/
def respModel (cfg : Config) (r : ChatRequest) : String :=
  if r.model = "" then cfg.deployment else r.model

/-- Response extraction of `chat_completion` (`src/main.py` lines 168-177):
`completion.choices[0]` raises on an empty list (the message of Python's
IndexError), otherwise the `ChatResponse` is built from the first choice's
content and the optional usage. -/
def extractChat (cfg : Config) (r : ChatRequest) (u : UpstreamResponse)
    (now : Int) : Except String ChatResponse :=
  match u.choices with
  | [] => .error "list index out of range"
  | c :: _ =>
      .ok { response := c.message.content
            model := respModel cfg r
            timestamp := now
            tokens_used := usageTokens u.usage }

/-- Response extraction of `generate_text` (`src/main.py` lines 224-235). -/
def extractGenerate (cfg : Config) (r : ChatRequest) (u : UpstreamResponse)
    (now : Int) : Except String GenerateResponse :=
  match u.choices with
  | [] => .error "list index out of range"
  | c :: _ =>
      .ok { generated_text := c.message.content
            model := respModel cfg r
            timestamp := now
            tokens_used := usageTokens u.usage
            generation_type := "text_completion" }

/-- Guard `verify_token` (`src/main.py` lines 108-114): an empty bearer credential is
rejected with a 401, any other credential is returned unchanged. -/
def verifyToken (credentials : String) : Except HErr String :=
  if credentials = "" then .error ⟨401, "Invalid authentication credentials"⟩
  else .ok credentials

/-- Modelled from the spec: the framework's `HTTPBearer` extraction (an external
collaborator, not part of src) is specified in section 4.4 to reject a request
whose Authorization header is missing with an authentication error before the
handler runs; an empty credential is then rejected by `verify_token`. -/
def extractBearer (auth : Option String) : Except HErr String :=
  match auth with
  | none => .error ⟨401, "Not authenticated"⟩
  | some s => verifyToken s

/-- Client construction, `get_azure_openai_client` body (`src/main.py` lines
83-94): missing endpoint or key fails fast with a 500 configuration error,
otherwise an `AzureOpenAI` client is built from the configuration. -/
def mkClient (cfg : Config) : Except HErr Client :=
  if cfg.endpoint = "" ∨ cfg.api_key = "" then
    .error ⟨500, "Azure Foundry configuration is missing. Please check AZURE_FOUNDRY_ENDPOINT and AZURE_FOUNDRY_API_KEY."⟩
  else .ok ⟨cfg.endpoint, cfg.api_key, cfg.api_version⟩

/-- The `lru_cache`d client factory (`src/main.py` lines 74-94): a cached client
is returned as-is; with an empty cache (initial state, or after
`clear_azure_client_cache`) the client is rebuilt from the current
configuration and cached. -/
def getAzureOpenAIClient (cache : Option Client) (cfg : Config) :
    Except HErr (Client × Option Client) :=
  match cache with
  | some c => .ok (c, some c)
  | none =>
      match mkClient cfg with
      | .error e => .error e
      | .ok c => .ok (c, some c)

/-- What the upstream transport produced for the single request: an HTTP
response (status, optionally parseable body, raw text) or a timeout raised by
the HTTP layer. -/
inductive TransportResult where
  | response (status : Nat) (json : Option UpstreamResponse) (text : String)
  | timeout (msg : String)
deriving DecidableEq, Repr

/-- Status handling of `AzureFoundryClient.chat_completion`
(`src/azure_foundry_client.py` lines 69-81): a timeout exception from the HTTP
layer propagates; a non-200 status raises
`Exception(f"Azure Foundry API error: {response.status_code}")`; on 200 the
parsed JSON body is returned (an unparseable body raises too). -/
def foundryChat (t : TransportResult) : Except String UpstreamResponse :=
  match t with
  | .timeout msg => .error msg
  | .response status json _ =>
      if status ≠ 200 then .error ("Azure Foundry API error: " ++ toString status)
      else
        match json with
        | some u => .ok u
        | none => .error "invalid json"

/-- Observable outcome of one handler invocation: the HTTP result, how many
upstream calls were attempted, and the client cache left behind. -/
structure RunResult (α : Type) where
  result : Except HErr α
  upstreamCalls : Nat
  cacheAfter : Option Client
deriving Repr

/-- The `/api/v1/chat/completions` handler (`src/main.py` lines 133-183)
together with its dependencies: bearer extraction and `verify_token`, the
cached client factory, pydantic body validation, then the `try` block that
performs exactly one upstream call and reshapes the result; the `except` block
clears the client cache and returns a 500 carrying the exception message. -/
def runChat (auth : Option String) (b : ChatBody) (cfg : Config)
    (cache : Option Client) (t : TransportResult) (now : Int) :
    RunResult ChatResponse :=
  match extractBearer auth with
  | .error e => ⟨.error e, 0, cache⟩
  | .ok _ =>
    match getAzureOpenAIClient cache cfg with
    | .error e => ⟨.error e, 0, cache⟩
    | .ok (_, cache1) =>
      match parseChatRequest b with
      | .error e => ⟨.error e, 0, cache1⟩
      | .ok req =>
        match foundryChat t with
        | .error msg =>
            ⟨.error ⟨500, "Internal server error: " ++ msg⟩, 1, none⟩
        | .ok u =>
          match extractChat cfg req u now with
          | .error msg =>
              ⟨.error ⟨500, "Internal server error: " ++ msg⟩, 1, none⟩
          | .ok resp => ⟨.ok resp, 1, cache1⟩

/-- The `/api/v1/generate` handler (`src/main.py` lines 186-241), identical
pipeline with the generate-specific preamble, response shape, and 500 message
prefix `Text generation error: `. -/
def runGenerate (auth : Option String) (b : ChatBody) (cfg : Config)
    (cache : Option Client) (t : TransportResult) (now : Int) :
    RunResult GenerateResponse :=
  match extractBearer auth with
  | .error e => ⟨.error e, 0, cache⟩
  | .ok _ =>
    match getAzureOpenAIClient cache cfg with
    | .error e => ⟨.error e, 0, cache⟩
    | .ok (_, cache1) =>
      match parseChatRequest b with
      | .error e => ⟨.error e, 0, cache1⟩
      | .ok req =>
        match foundryChat t with
        | .error msg =>
            ⟨.error ⟨500, "Text generation error: " ++ msg⟩, 1, none⟩
        | .ok u =>
          match extractGenerate cfg req u now with
          | .error msg =>
              ⟨.error ⟨500, "Text generation error: " ++ msg⟩, 1, none⟩
          | .ok resp => ⟨.ok resp, 1, cache1⟩

namespace ModelsPy

/-- Field-level validation of the unused `ChatRequest` schema declared in
`src/models.py` (lines 23-31): `message` required, `max_tokens ∈ [1,4000]`,
`temperature ∈ [0,2]`, `top_p ∈ [0,1]`, penalties in `[-2,2]`; absent optional
fields are valid (the declared defaults apply). -/
def chatRequestValid (b : ChatBody) : Bool :=
  b.message.isSome &&
  (match b.max_tokens with | none => true | some n => decide (1 ≤ n) && decide (n ≤ 4000)) &&
  (match b.temperature with | none => true | some x => decide ((0 : ℚ) ≤ x) && decide (x ≤ 2)) &&
  (match b.top_p with | none => true | some x => decide ((0 : ℚ) ≤ x) && decide (x ≤ 1)) &&
  (match b.frequency_penalty with | none => true | some x => decide ((-2 : ℚ) ≤ x) && decide (x ≤ 2)) &&
  (match b.presence_penalty with | none => true | some x => decide ((-2 : ℚ) ≤ x) && decide (x ≤ 2))

end ModelsPy

/-! Concrete fixtures used to instantiate hypotheses and exhibit
counterexamples. -/

/-- A fully populated configuration. -/
def cfg0 : Config :=
  ⟨"https://example.openai.azure.com", "key0", "dep", "2025-01-01-preview"⟩

/-- A parsed request with every field at its declared default. -/
def req0 : ChatRequest :=
  ⟨"hi", "gpt-4.1", 1000, 0.7⟩

/-- A minimal valid request body: only `message` supplied. -/
def body0 : ChatBody :=
  ⟨some "hi", none, none, none, none, none, none, none, none⟩

/-- A successful upstream response with one choice and a usage block. -/
def u0 : UpstreamResponse :=
  ⟨"cmpl-0", "chat.completion", 1700000000, "dep",
   [⟨0, ⟨"assistant", "hello"⟩, some "stop"⟩], some ⟨1, 2, 3⟩⟩

/-- C1: for every request accepted by the chat-completion endpoint, the message
sequence sent to the upstream call is exactly the fixed system preamble
followed by the caller-supplied messages (in this variant, the single user
message), so order and count of the caller's messages are preserved verbatim. -/
theorem C1_chat_forwards_caller_messages_in_order (cfg : Config) (r : ChatRequest) :
    (chatPayload cfg r).messages = chatPreamble :: callerMessages r ∧
    (chatPayload cfg r).messages.length = (callerMessages r).length + 1 :=
  ⟨rfl, rfl⟩

/-- C2: the `stream` flag of the payload sent upstream is `false` for every
chat-completion and generate request, and a caller-supplied `stream` value in
the request body cannot influence the parsed request at all. -/
theorem C2_upstream_stream_always_false (cfg : Config) (r : ChatRequest)
    (b : ChatBody) (s : Option Bool) :
    (chatPayload cfg r).stream = false ∧
    (generatePayload cfg r).stream = false ∧
    parseChatRequest { b with stream := s } = parseChatRequest b :=
  ⟨rfl, rfl, rfl⟩

/-- C5: with a missing Authorization header or an empty bearer credential, both
protected endpoints answer 401 and perform no upstream call (the cache is also
left untouched). -/
theorem C5_missing_or_empty_token_yields_401_without_upstream_call
    (b : ChatBody) (cfg : Config) (cache : Option Client) (t : TransportResult)
    (now : Int) :
    (runChat none b cfg cache t now).result = .error ⟨401, "Not authenticated"⟩ ∧
    (runChat none b cfg cache t now).upstreamCalls = 0 ∧
    (runChat (some "") b cfg cache t now).result
      = .error ⟨401, "Invalid authentication credentials"⟩ ∧
    (runChat (some "") b cfg cache t now).upstreamCalls = 0 ∧
    (runGenerate none b cfg cache t now).result = .error ⟨401, "Not authenticated"⟩ ∧
    (runGenerate none b cfg cache t now).upstreamCalls = 0 ∧
    (runGenerate (some "") b cfg cache t now).result
      = .error ⟨401, "Invalid authentication credentials"⟩ ∧
    (runGenerate (some "") b cfg cache t now).upstreamCalls = 0 ∧
    (runChat none b cfg cache t now).cacheAfter = cache ∧
    (runChat (some "") b cfg cache t now).cacheAfter = cache :=
  ⟨rfl, rfl, rfl, rfl, rfl, rfl, rfl, rfl, rfl, rfl⟩

/-- An upstream response with two choices (indices 0 and 1). -/
def uTwoChoicesA : UpstreamResponse :=
  ⟨"cmpl-a", "chat.completion", 0, "dep",
   [⟨0, ⟨"assistant", "a"⟩, some "stop"⟩, ⟨1, ⟨"assistant", "b"⟩, some "stop"⟩],
   some ⟨1, 2, 3⟩⟩

/-- Like `uTwoChoicesA` but the second choice differs (index 7, other content). -/
def uTwoChoicesB : UpstreamResponse :=
  ⟨"cmpl-a", "chat.completion", 0, "dep",
   [⟨0, ⟨"assistant", "a"⟩, some "stop"⟩, ⟨7, ⟨"assistant", "c"⟩, some "stop"⟩],
   some ⟨1, 2, 3⟩⟩

/-- C3 counterexample: the service output is NOT an order-preserving map of the
upstream choices.  The serialized `ChatResponse` has no `choices` field at all,
and two upstream responses whose choice-index sequences differ (`[0,1]` vs
`[0,7]`) produce identical outputs, so no `choices[i].index` of the output can
equal the upstream `choices[i].index` for every `i`. -/
theorem C3_counterexample_no_output_choices :
    extractChat cfg0 req0 uTwoChoicesA 0 = extractChat cfg0 req0 uTwoChoicesB 0 ∧
    uTwoChoicesA.choices.map UChoice.index ≠ uTwoChoicesB.choices.map UChoice.index ∧
    "choices" ∉ chatResponseFields :=
  ⟨rfl, by decide, by decide⟩

/-- C3 amended: the chat-completion output keeps only the FIRST upstream
choice: its `response` string is `choices[0].message.content`, and all other
choices, together with every index and finish reason, are discarded (the
response model has no `choices` field). -/
theorem C3_amended_output_keeps_only_first_choice (cfg : Config) (r : ChatRequest)
    (u : UpstreamResponse) (now : Int) (c : UChoice) (rest : List UChoice)
    (h : u.choices = c :: rest) :
    extractChat cfg r u now
      = .ok ⟨c.message.content, respModel cfg r, now, usageTokens u.usage⟩ := by
  simp [extractChat, h]

/-- C3 witness: the amended theorem evaluated on a concrete two-choice upstream
response. -/
theorem C3_amended_output_keeps_only_first_choice_witness :
    extractChat cfg0 req0 uTwoChoicesA 0
      = .ok ⟨"a", "gpt-4.1", 0, some 3⟩ :=
  C3_amended_output_keeps_only_first_choice cfg0 req0 uTwoChoicesA 0
    ⟨0, ⟨"assistant", "a"⟩, some "stop"⟩ [⟨1, ⟨"assistant", "b"⟩, some "stop"⟩] rfl

/-- C8: when the upstream response carries no `usage` object (and has at least
one choice, which both handlers require unconditionally), the reshaped output
reports `tokens_used` as absent (`None`) on both endpoints and the extraction
returns normally rather than raising. -/
theorem C8_absent_usage_reports_absent_tokens (cfg : Config) (r : ChatRequest)
    (u : UpstreamResponse) (now : Int) (c : UChoice) (rest : List UChoice)
    (hu : u.usage = none) (hc : u.choices = c :: rest) :
    extractChat cfg r u now = .ok ⟨c.message.content, respModel cfg r, now, none⟩ ∧
    extractGenerate cfg r u now
      = .ok ⟨c.message.content, respModel cfg r, now, none, "text_completion"⟩ := by
  constructor <;> simp [extractChat, extractGenerate, hc, usageTokens, hu]

/-- An upstream response with one choice and no usage block. -/
def uNoUsage : UpstreamResponse :=
  ⟨"cmpl-n", "chat.completion", 0, "dep",
   [⟨0, ⟨"assistant", "hello"⟩, some "stop"⟩], none⟩

/-- C8 witness: the theorem evaluated on a concrete usage-free upstream
response. -/
theorem C8_absent_usage_reports_absent_tokens_witness :
    extractChat cfg0 req0 uNoUsage 0 = .ok ⟨"hello", "gpt-4.1", 0, none⟩ ∧
    extractGenerate cfg0 req0 uNoUsage 0
      = .ok ⟨"hello", "gpt-4.1", 0, none, "text_completion"⟩ :=
  C8_absent_usage_reports_absent_tokens cfg0 req0 uNoUsage 0
    ⟨0, ⟨"assistant", "hello"⟩, some "stop"⟩ [] rfl rfl

/-- A body that supplies `max_tokens = 0`, which the spec says must be
rejected with a 422. -/
def bodyMaxTok0 : ChatBody :=
  ⟨some "hi", none, some 0, none, none, none, none, none, none⟩

/-- C4 counterexample: a chat request with `max_tokens = 0` is NOT rejected:
the served `ChatRequest` schema (`src/main.py`) declares no bounds, so the
request passes validation, one upstream call is attempted, and the request
succeeds (no 422 is ever produced). -/
theorem C4_counterexample_max_tokens_zero_not_rejected :
    (runChat (some "tok") bodyMaxTok0 cfg0 none (.response 200 (some u0) "") 0).upstreamCalls = 1 ∧
    (runChat (some "tok") bodyMaxTok0 cfg0 none (.response 200 (some u0) "") 0).result
      = .ok ⟨"hello", "gpt-4.1", 0, some 3⟩ :=
  ⟨rfl, rfl⟩

/-- C4 amended: the served endpoint applies no range constraint to
`max_tokens` — any supplied integer parses successfully and is forwarded —
while the `[1,4000]` bounds exist only on the unused `ChatRequest` schema of
`src/models.py`, whose validator indeed accepts only values in range. -/
theorem C4_amended_bounds_only_in_unused_schema (b : ChatBody) (m : String) (n : Int)
    (hm : b.message = some m) (hn : b.max_tokens = some n) :
    parseChatRequest b
      = .ok ⟨m, b.model.getD "gpt-4.1", n, b.temperature.getD 0.7⟩ ∧
    (ModelsPy.chatRequestValid b = true → 1 ≤ n ∧ n ≤ 4000) := by
  constructor
  · simp [parseChatRequest, hm, hn]
  · intro hv
    simp [ModelsPy.chatRequestValid, hn, Bool.and_eq_true, decide_eq_true_iff] at hv
    omega

/-- A body that supplies an in-range `max_tokens`. -/
def bodyMaxTok2000 : ChatBody :=
  ⟨some "hi", none, some 2000, none, none, none, none, none, none⟩

/-- C4 witness: the amended theorem evaluated at a concrete body. -/
theorem C4_amended_bounds_only_in_unused_schema_witness :
    parseChatRequest bodyMaxTok2000 = .ok ⟨"hi", "gpt-4.1", 2000, 0.7⟩ ∧
    (ModelsPy.chatRequestValid bodyMaxTok2000 = true → 1 ≤ (2000 : Int) ∧ (2000 : Int) ≤ 4000) :=
  C4_amended_bounds_only_in_unused_schema bodyMaxTok2000 "hi" 2000 rfl rfl

/-- C6: on any non-200 upstream status the service answers with its own 500
whose detail string contains the literal upstream status code (via the
repository client's `Azure Foundry API error: {status}` message wrapped by the
handler's `Internal server error: ` prefix), the client cache is cleared, and
the next factory call rebuilds a fresh client from the configuration. -/
theorem C6_upstream_error_surfaced_and_cache_invalidated
    (tok m text : String) (b : ChatBody) (cfg : Config) (status : Nat)
    (cache : Option Client) (now : Int)
    (htok : tok ≠ "") (hm : b.message = some m)
    (hend : cfg.endpoint ≠ "") (hkey : cfg.api_key ≠ "") (hstatus : status ≠ 200) :
    (runChat (some tok) b cfg cache (.response status none text) now).result
      = .error ⟨500, "Internal server error: Azure Foundry API error: " ++ toString status⟩ ∧
    (∃ pre suf, "Internal server error: Azure Foundry API error: " ++ toString status
        = pre ++ toString status ++ suf) ∧
    (runChat (some tok) b cfg cache (.response status none text) now).cacheAfter = none ∧
    getAzureOpenAIClient none cfg
      = .ok (⟨cfg.endpoint, cfg.api_key, cfg.api_version⟩,
             some ⟨cfg.endpoint, cfg.api_key, cfg.api_version⟩) := by
  have hrun : runChat (some tok) b cfg cache (.response status none text) now
      = ⟨.error ⟨500, "Internal server error: Azure Foundry API error: " ++ toString status⟩,
         1, none⟩ := by
    cases cache <;>
      simp [runChat, extractBearer, verifyToken, htok, getAzureOpenAIClient, mkClient,
            hend, hkey, parseChatRequest, hm, foundryChat, hstatus] <;>
      (rw [← String.append_assoc]; rfl)
  refine ⟨by rw [hrun], ⟨"Internal server error: Azure Foundry API error: ", "", ?_⟩,
          by rw [hrun], ?_⟩
  · rw [String.append_empty]
  · simp [getAzureOpenAIClient, mkClient, hend, hkey]

/-- C6 witness: a concrete upstream 500 produces the service 500 with the
status code in the body and an invalidated cache. -/
theorem C6_upstream_error_surfaced_and_cache_invalidated_witness :
    (runChat (some "tok") body0 cfg0 none (.response 500 none "boom") 0).result
      = .error ⟨500, "Internal server error: Azure Foundry API error: 500"⟩ ∧
    (∃ pre suf, "Internal server error: Azure Foundry API error: 500"
        = pre ++ toString (500 : Nat) ++ suf) ∧
    (runChat (some "tok") body0 cfg0 none (.response 500 none "boom") 0).cacheAfter = none ∧
    getAzureOpenAIClient none cfg0
      = .ok (⟨cfg0.endpoint, cfg0.api_key, cfg0.api_version⟩,
             some ⟨cfg0.endpoint, cfg0.api_key, cfg0.api_version⟩) :=
  C6_upstream_error_surfaced_and_cache_invalidated "tok" "hi" "boom" body0 cfg0 500
    none 0 (by decide) rfl (by decide) (by decide) (by decide)

/-- C7 counterexample: on an upstream timeout the service answers 500 with a
generic `Internal server error` detail — not the claimed distinct 504
upstream-timeout error — after exactly one upstream attempt. -/
theorem C7_counterexample_timeout_returns_500_not_504 :
    (runChat (some "tok") body0 cfg0 none (.timeout "Request timed out") 0).result
      = .error ⟨500, "Internal server error: Request timed out"⟩ ∧
    (500 : Nat) ≠ 504 ∧
    (runChat (some "tok") body0 cfg0 none (.timeout "Request timed out") 0).upstreamCalls = 1 :=
  ⟨rfl, by decide, rfl⟩

/-- C7 amended: an upstream timeout is surfaced exactly once per request with
no retry, but as the handlers' generic 500 (`Internal server error: ` /
`Text generation error: ` plus the exception message); no distinct 504
upstream-timeout error kind exists in the code. -/
theorem C7_amended_timeout_single_attempt_generic_500
    (tok m msg : String) (b : ChatBody) (cfg : Config) (cache : Option Client)
    (now : Int) (htok : tok ≠ "") (hm : b.message = some m)
    (hend : cfg.endpoint ≠ "") (hkey : cfg.api_key ≠ "") :
    (runChat (some tok) b cfg cache (.timeout msg) now).result
      = .error ⟨500, "Internal server error: " ++ msg⟩ ∧
    (runChat (some tok) b cfg cache (.timeout msg) now).upstreamCalls = 1 ∧
    (runGenerate (some tok) b cfg cache (.timeout msg) now).result
      = .error ⟨500, "Text generation error: " ++ msg⟩ ∧
    (runGenerate (some tok) b cfg cache (.timeout msg) now).upstreamCalls = 1 := by
  refine ⟨?_, ?_, ?_, ?_⟩ <;>
    cases cache <;>
      simp [runChat, runGenerate, extractBearer, verifyToken, htok, getAzureOpenAIClient,
            mkClient, hend, hkey, parseChatRequest, hm, foundryChat]

/-- C7 witness: the amended theorem at a concrete timed-out request. -/
theorem C7_amended_timeout_single_attempt_generic_500_witness :
    (runChat (some "tok") body0 cfg0 none (.timeout "timed out") 0).result
      = .error ⟨500, "Internal server error: timed out"⟩ ∧
    (runChat (some "tok") body0 cfg0 none (.timeout "timed out") 0).upstreamCalls = 1 ∧
    (runGenerate (some "tok") body0 cfg0 none (.timeout "timed out") 0).result
      = .error ⟨500, "Text generation error: timed out"⟩ ∧
    (runGenerate (some "tok") body0 cfg0 none (.timeout "timed out") 0).upstreamCalls = 1 :=
  C7_amended_timeout_single_attempt_generic_500 "tok" "hi" "timed out" body0 cfg0
    none 0 (by decide) rfl (by decide) (by decide)

/-- A body that explicitly supplies `top_p`, penalties and `stop` — fields the
served `ChatRequest` schema does not declare. -/
def bodyExplicitParams : ChatBody :=
  ⟨some "hi", none, none, none, some 0.2, some 0.5, some 0.5, some ["END"], none⟩

/-- C9 counterexample: a caller-supplied `top_p = 0.2`, penalties `0.5` and a
stop sequence are silently dropped by the served schema and replaced in the
upstream payload by the hard-coded `top_p = 0.95`, zero penalties and no stop —
the explicit caller-supplied values are overridden. -/
theorem C9_counterexample_explicit_params_overridden :
    parseChatRequest bodyExplicitParams = .ok ⟨"hi", "gpt-4.1", 1000, 0.7⟩ ∧
    bodyExplicitParams.top_p = some 0.2 ∧
    (chatPayload cfg0 ⟨"hi", "gpt-4.1", 1000, 0.7⟩).top_p = 0.95 ∧
    (0.95 : ℚ) ≠ 0.2 ∧
    bodyExplicitParams.frequency_penalty = some 0.5 ∧
    (chatPayload cfg0 ⟨"hi", "gpt-4.1", 1000, 0.7⟩).frequency_penalty = 0 ∧
    (0 : ℚ) ≠ 0.5 ∧
    bodyExplicitParams.stop = some ["END"] ∧
    (chatPayload cfg0 ⟨"hi", "gpt-4.1", 1000, 0.7⟩).stop = none :=
  ⟨rfl, rfl, rfl, by norm_num, rfl, rfl, by norm_num, rfl, rfl⟩

/-- C9 amended: only `max_tokens` and `temperature` are caller-controllable —
their pydantic defaults (1000 and 0.7) are applied exactly when the field is
absent and an explicitly supplied value is forwarded verbatim — while `top_p`,
`frequency_penalty`, `presence_penalty` and `stop` are fixed to 0.95, 0, 0 and
absent in the upstream payload of both endpoints, regardless of caller input. -/
theorem C9_amended_defaults_only_for_declared_fields (b : ChatBody) (m : String)
    (cfg : Config) (req : ChatRequest) (hm : b.message = some m)
    (hp : parseChatRequest b = .ok req) :
    (b.max_tokens = none → (chatPayload cfg req).max_tokens = 1000) ∧
    (∀ v, b.max_tokens = some v → (chatPayload cfg req).max_tokens = v) ∧
    (b.temperature = none → (chatPayload cfg req).temperature = 0.7) ∧
    (∀ x, b.temperature = some x → (chatPayload cfg req).temperature = x) ∧
    (chatPayload cfg req).top_p = 0.95 ∧
    (chatPayload cfg req).frequency_penalty = 0 ∧
    (chatPayload cfg req).presence_penalty = 0 ∧
    (chatPayload cfg req).stop = none ∧
    (generatePayload cfg req).top_p = 0.95 ∧
    (generatePayload cfg req).frequency_penalty = 0 ∧
    (generatePayload cfg req).presence_penalty = 0 ∧
    (generatePayload cfg req).stop = none := by
  simp only [parseChatRequest, hm, Except.ok.injEq] at hp
  subst hp
  refine ⟨fun h => ?_, fun v hv => ?_, fun h => ?_, fun x hx => ?_,
          rfl, rfl, rfl, rfl, rfl, rfl, rfl, rfl⟩
  · simp [chatPayload, h]
  · simp [chatPayload, hv]
  · simp [chatPayload, h]
  · simp [chatPayload, hx]

/-- C9 witness: the amended theorem at the minimal body (all generation
parameters omitted). -/
theorem C9_amended_defaults_only_for_declared_fields_witness :
    (body0.max_tokens = none → (chatPayload cfg0 req0).max_tokens = 1000) ∧
    (∀ v, body0.max_tokens = some v → (chatPayload cfg0 req0).max_tokens = v) ∧
    (body0.temperature = none → (chatPayload cfg0 req0).temperature = 0.7) ∧
    (∀ x, body0.temperature = some x → (chatPayload cfg0 req0).temperature = x) ∧
    (chatPayload cfg0 req0).top_p = 0.95 ∧
    (chatPayload cfg0 req0).frequency_penalty = 0 ∧
    (chatPayload cfg0 req0).presence_penalty = 0 ∧
    (chatPayload cfg0 req0).stop = none ∧
    (generatePayload cfg0 req0).top_p = 0.95 ∧
    (generatePayload cfg0 req0).frequency_penalty = 0 ∧
    (generatePayload cfg0 req0).presence_penalty = 0 ∧
    (generatePayload cfg0 req0).stop = none :=
  C9_amended_defaults_only_for_declared_fields body0 "hi" cfg0 req0 rfl rfl

/-- C10 counterexample: the claim's echo clause fails on an explicitly supplied
empty `model`: the parsed request has `model = ""`, and the response's `model`
field is the configured deployment name, not the caller-supplied value. -/
theorem C10_counterexample_empty_model_not_echoed :
    parseChatRequest ⟨some "hi", some "", none, none, none, none, none, none, none⟩
      = .ok ⟨"hi", "", 1000, 0.7⟩ ∧
    extractChat cfg0 ⟨"hi", "", 1000, 0.7⟩ u0 0 = .ok ⟨"hello", "dep", 0, some 3⟩ ∧
    ("dep" : String) ≠ "" :=
  ⟨rfl, rfl, by decide⟩

/-- C10 amended: the model name of the upstream payload is always the
configured deployment name on both endpoints, and any two requests differing
only in `model` produce identical upstream payloads; the response's `model`
field echoes the caller-supplied value whenever that value is non-empty (an
empty or falsy `model` falls back to the deployment name). -/
theorem C10_amended_model_never_influences_upstream (cfg : Config)
    (r : ChatRequest) (m : String) (hm : r.model ≠ "") :
    (chatPayload cfg r).model = cfg.deployment ∧
    (generatePayload cfg r).model = cfg.deployment ∧
    chatPayload cfg { r with model := m } = chatPayload cfg r ∧
    generatePayload cfg { r with model := m } = generatePayload cfg r ∧
    respModel cfg r = r.model :=
  ⟨rfl, rfl, rfl, rfl, if_neg hm⟩

/-- C10 witness: the amended theorem at a concrete request with a non-empty
model field. -/
theorem C10_amended_model_never_influences_upstream_witness :
    (chatPayload cfg0 req0).model = cfg0.deployment ∧
    (generatePayload cfg0 req0).model = cfg0.deployment ∧
    chatPayload cfg0 { req0 with model := "other" } = chatPayload cfg0 req0 ∧
    generatePayload cfg0 { req0 with model := "other" } = generatePayload cfg0 req0 ∧
    respModel cfg0 req0 = req0.model :=
  C10_amended_model_never_influences_upstream cfg0 req0 "other" (by decide)
